import Mathlib

/-
Verification of the session-lifecycle manager of the `jackie` repository.

The Python sources under `src/app` (`chat_logic.py`, `chat.py`, `main.py`)
are shallowly embedded below.  Conventions:

* ISO-8601 UTC timestamp strings compare lexicographically exactly as the
  instants they denote, so timestamps are embedded as naturals (or integers
  where differences are taken), preserving the order the code compares.
* Network and database effects are made explicit: the embedding returns,
  next to the computed value, the writes the code performs (store inserts,
  cache writes, notifier payloads, side-queue files).
* Python `try/except` bodies become `Except Unit` values, caught by the
  embedding of the enclosing handler.
* The stable Python `list.sort(key=...)` is embedded as `List.insertionSort`
  on the timestamp key; any two stable sorts agree extensionally.
-/

/-- A chat message of a session history: role (`true` = user / HumanMessage,
`false` = assistant / AIMessage), content and timestamp. -/
structure Msg where
  role : Bool
  content : String
  timestamp : Nat
deriving DecidableEq, Repr

/-- Timestamp order of messages, the sort key
`messages_json.sort(key=lambda x: x["timestamp"])` of `chat_logic.close_session`. -/
def msgLe (a b : Msg) : Prop := a.timestamp ≤ b.timestamp

instance : DecidableRel msgLe := fun a b => Nat.decLe a.timestamp b.timestamp

instance : IsTotal Msg msgLe := ⟨fun a b => Nat.le_total a.timestamp b.timestamp⟩

instance : IsTrans Msg msgLe := ⟨fun _ _ _ h h2 => Nat.le_trans h h2⟩

/-- The stable sort by timestamp applied by the in-memory branch of
`chat_logic.close_session` just before persisting the transcript. -/
def sortTranscript (l : List Msg) : List Msg := List.insertionSort msgLe l

/-- Session status in the `sessions` table of the store. -/
inductive SessStatus where
  | active
  | closed
deriving DecidableEq, Repr

/-- A row of the durable `sessions` table as far as `close_session` reads and
writes it: its status and its stored message list. -/
structure DbSession where
  status : SessStatus
  messages : List Msg
deriving DecidableEq, Repr

/-- The state `chat_logic.close_session` operates on, for one session id:
the in-memory `chat_history_store` entry (the `session_messages` list), the
durable row, and the list of transcripts handed to the profile-updater
notifier so far (one entry per delivery attempt started). -/
structure CloseState where
  mem : Option (List Msg)
  db : Option DbSession
  delivered : List (List Msg)
deriving DecidableEq, Repr

/-- `chat_logic.close_session`.  In-memory branch: formats and stably sorts
the session messages by timestamp, updates the durable row to `closed` with
the sorted messages, always starts a profile-updater delivery with the sorted
transcript, and evicts the in-memory entry.  Store branch (session not in
memory): fetches the row, returns unchanged when absent, otherwise marks it
`closed` (messages left as stored, unsorted) and starts a delivery with the
stored messages.  No branch inspects the previous `status` of the row. -/
def close_session (s : CloseState) : CloseState :=
  match s.mem with
  | some msgs =>
      let sorted := sortTranscript msgs
      { mem := none
        db := s.db.map fun _ => { status := SessStatus.closed, messages := sorted }
        delivered := s.delivered ++ [sorted] }
  | none =>
      match s.db with
      | none => s
      | some d =>
          { mem := none
            db := some { status := SessStatus.closed, messages := d.messages }
            delivered := s.delivered ++ [d.messages] }

/-- A `sessions` row as enumerated by the reaper sweep: its id and its
`last_activity` timestamp (`none` embeds a NULL / unparsable value, which the
sweep skips). -/
structure ReapRow where
  sid : Nat
  lastActivity : Option Int
deriving DecidableEq, Repr

/-- The candidate selection of the reaper (`main.close_expired_sessions`,
same predicate in `chat_logic.check_expired_sessions`): among the rows with
`status = active`, those driven through `close_session` are exactly the ones
whose `last_activity` parses and satisfies `now - last_activity > timeout`. -/
def close_expired_sessions (now timeout : Int) (rows : List ReapRow) : List ReapRow :=
  rows.filter fun r =>
    match r.lastActivity with
    | none => false
    | some t => timeout < now - t

/-- The observable trace of one notifier run: number of HTTP POSTs made,
the sleeps performed between attempts (seconds), and the side-queue files
written, each keyed by session id and unix timestamp
(`failed_updates/{session_id}_{int(time.time())}.json`). -/
structure NotifyTrace where
  posts : Nat
  sleeps : List Nat
  sideQueue : List (String × Nat)
deriving DecidableEq, Repr

/-- `max_retries = 3` in `send_profile_update_async`. -/
def max_retries : Nat := 3

/-- The attempt loop of `chat_logic.send_profile_update_async`: `remaining`
attempts left, current attempt number and current delay.  `ok a` tells
whether attempt `a` receives a 200 response (any non-200, timeout or
transport exception counts as failure).  A failed attempt sleeps the current
delay and doubles it, except after the last attempt; on exhaustion the
payload is written once to the side-queue file. -/
def notifyGo (ok : Nat → Bool) (sid : String) (now : Nat) :
    Nat → Nat → Nat → NotifyTrace
  | 0, _, _ => ⟨0, [], [(sid, now)]⟩
  | 1, a, _ => if ok a then ⟨1, [], []⟩ else ⟨1, [], [(sid, now)]⟩
  | r + 2, a, d =>
      if ok a then ⟨1, [], []⟩
      else
        let rest := notifyGo ok sid now (r + 1) (a + 1) (2 * d)
        ⟨1 + rest.posts, d :: rest.sleeps, rest.sideQueue⟩

/-- `chat_logic.send_profile_update_async`: up to `max_retries = 3` POSTs,
initial delay 2 seconds, doubling after each failed attempt. -/
def send_profile_update_async (ok : Nat → Bool) (sid : String) (now : Nat) :
    NotifyTrace :=
  notifyGo ok sid now max_retries 1 2

/-- The delivery attempt of `chat.close_session` (the `chat.py` close path):
when the transcript is non-empty it POSTs once to the profile updater;
a non-200 response or exception (`succeeded = false`) is only logged —
no retry, no sleep, no side-queue write. -/
def chat_close_deliver (succeeded : Bool) (msgs : List Msg) : NotifyTrace :=
  if msgs.isEmpty then ⟨0, [], []⟩
  else
    match succeeded with
    | true => ⟨1, [], []⟩
    | false => ⟨1, [], []⟩

/-- Per-client progress through `main.get_or_create_session` for one
identity: before the active-session check, past the check and about to
insert, or done. -/
inductive GocPhase where
  | checking
  | inserting
  | finished
deriving DecidableEq, Repr

/-- A `sessions` row as the create path sees it: its id (the creation epoch
second of `f"{user_id}_{int(time.time())}"`, the user id being fixed) and
whether it is active. -/
structure GocRow where
  sid : Nat
  active : Bool
deriving DecidableEq, Repr

/-- One caller of `main.get_or_create_session`: its phase, the epoch second
at which it would create (determining the id it synthesizes), and the session
id it returned. -/
structure GocClient where
  phase : GocPhase
  t : Nat
  result : Option Nat
deriving DecidableEq, Repr

/-- One step of a caller against the store.  `checking`: the Redis and
Supabase active-session lookups (both reads); a hit returns that id, a miss
moves on to the create branch.  `inserting`: synthesizes `id = t` and inserts
the row; a duplicate-key failure is caught and logged and the call still
returns the synthesized id (the code proceeds to cache the session dict).
There is no lock around the check-then-insert sequence. -/
def gocClientStep (store : List GocRow) (c : GocClient) : List GocRow × GocClient :=
  match c.phase with
  | GocPhase.checking =>
      match store.find? (fun r => r.active) with
      | some r => (store, { c with phase := GocPhase.finished, result := some r.sid })
      | none => (store, { c with phase := GocPhase.inserting })
  | GocPhase.inserting =>
      if store.any (fun r => r.sid = c.t) then
        (store, { c with phase := GocPhase.finished, result := some c.t })
      else
        (store ++ [⟨c.t, true⟩], { c with phase := GocPhase.finished, result := some c.t })
  | GocPhase.finished => (store, c)

/-- Shared state of two concurrent `get_or_create_session` calls for the
same identity. -/
structure GocSys where
  store : List GocRow
  c1 : GocClient
  c2 : GocClient
deriving DecidableEq, Repr

/-- Scheduler step: run the next action of client 1 (`true`) or client 2. -/
def gocStep (s : GocSys) (who : Bool) : GocSys :=
  if who then
    let (st, c) := gocClientStep s.store s.c1
    { s with store := st, c1 := c }
  else
    let (st, c) := gocClientStep s.store s.c2
    { s with store := st, c2 := c }

/-- Run a schedule (interleaving) of the two calls. -/
def gocRun (sched : List Bool) (s : GocSys) : GocSys :=
  sched.foldl gocStep s

/-- Initial state: empty store (first messages of a fresh identity), both
calls about to check, creating at epoch seconds `t1` and `t2`. -/
def gocInit (t1 t2 : Nat) : GocSys :=
  ⟨[], ⟨GocPhase.checking, t1, none⟩, ⟨GocPhase.checking, t2, none⟩⟩

/-- Number of rows with `status = active` for the identity. -/
def activeCount (store : List GocRow) : Nat :=
  (store.filter fun r => r.active).length

/-- `"whatsapp:"` as a character list, the channel prefix
`phone_number.replace("whatsapp:", "")` removes. -/
def waPat : List Char := "whatsapp:".toList

/-- Fuel-indexed removal of every occurrence of `"whatsapp:"`, the behaviour
of Python `str.replace` with empty replacement. -/
def stripWaAux : Nat → List Char → List Char
  | 0, l => l
  | _ + 1, [] => []
  | fuel + 1, c :: cs =>
      if (c :: cs).take 9 = waPat then stripWaAux fuel ((c :: cs).drop 9)
      else c :: stripWaAux fuel cs

/-- The call `phone_number.replace("whatsapp:", "")` of `get_user_id`. -/
def pyReplaceWa (l : List Char) : List Char := stripWaAux l.length l

/-- Python `str.strip()`: drop whitespace from both ends. -/
def trimChars (l : List Char) : List Char :=
  ((l.dropWhile Char.isWhitespace).reverse.dropWhile Char.isWhitespace).reverse

/-- The cleaning step of `get_user_id` (`chat.py` and `chat_logic.py`):
`clean_number = phone_number.replace("whatsapp:", "").strip()`. -/
def cleanNumber (l : List Char) : List Char := trimChars (pyReplaceWa l)

/-- The normalization of `get_user_id`: after cleaning, prepend `'+'` only
when the cleaned number does not already start with `'+'`. -/
def normalizeNumber (l : List Char) : List Char :=
  let c := cleanNumber l
  if c.head? = some '+' then c else '+' :: c

/-- Number of leading `'+'` characters. -/
def leadingPlus (l : List Char) : Nat := (l.takeWhile fun c => c = '+').length

/-- Lookup of the `users` table by exact `phone_number` key. -/
def lookupDir (dir : List (List Char × Nat)) (k : List Char) : Option Nat :=
  (dir.find? fun p => p.1 = k).map fun p => p.2

/-- `get_user_id`: query the user directory with the normalized number;
on a miss, when the normalized number starts with `'+'` (it always does),
retry with its leading `'+'` removed (`clean_number[1:]`). -/
def get_user_id (dir : List (List Char × Nat)) (phone : List Char) : Option Nat :=
  let c := normalizeNumber phone
  match lookupDir dir c with
  | some u => some u
  | none =>
      if c.head? = some '+' then lookupDir dir (c.drop 1)
      else none

/-- Value of the digit run `ds`, most significant first. -/
def digitsToNat (ds : List Char) : Nat :=
  ds.foldl (fun n c => 10 * n + (c.toNat - 48)) 0

/-- First match of the score-extraction regex `(\d+(\.\d+)?)` of
`detect_call_intention` / `detect_intro_request_intention`, as a rational:
the first maximal digit run, with a fractional part when a `'.'` followed by
at least one digit comes right after it. -/
def findFirstNumber : List Char → Option ℚ
  | [] => none
  | c :: cs =>
      if c.isDigit then
        let intDs := (c :: cs).takeWhile Char.isDigit
        let rest := (c :: cs).dropWhile Char.isDigit
        match rest with
        | '.' :: r2 =>
            let fracDs := r2.takeWhile Char.isDigit
            if fracDs = [] then some (mkRat (digitsToNat intDs) 1)
            else
              some (mkRat (digitsToNat intDs * 10 ^ fracDs.length + digitsToNat fracDs)
                (10 ^ fracDs.length))
        | _ => some (mkRat (digitsToNat intDs) 1)
      else findFirstNumber cs

/-- Result of Python `float(...)` on the digit-free strings on which
`detect_call_intention` reaches its fallback conversion (a reply containing
any digit is always captured by the regex first): the infinities and NaN. -/
inductive PyFloatSpecial where
  | inf
  | ninf
  | nan
deriving DecidableEq, Repr

/-- The sign-free core accepted by `float` among digit-free strings. -/
def pyFloatCore (r : List Char) : Option PyFloatSpecial :=
  if r = "inf".toList ∨ r = "infinity".toList then some PyFloatSpecial.inf
  else if r = "nan".toList then some PyFloatSpecial.nan
  else none

/-- Python `float(raw_response)` on a digit-free string: strip, lower-case,
optional sign, then `inf`/`infinity`/`nan`; anything else raises
`ValueError` (embedded as `none`). -/
def pyFloatOfChars (l : List Char) : Option PyFloatSpecial :=
  let t := (trimChars l).map Char.toLower
  match t with
  | '+' :: r => pyFloatCore r
  | '-' :: r =>
      match pyFloatCore r with
      | some PyFloatSpecial.inf => some PyFloatSpecial.ninf
      | some v => some v
      | none => none
  | r => pyFloatCore r

/-- Python `max(0, min(1, x))` on the special values: `min(1, inf) = 1`;
`min(1, nan)` keeps the first argument `1` because `nan < 1` is false;
`min(1, -inf) = -inf` then `max(0, -inf) = 0`. -/
def clampSpecial : PyFloatSpecial → ℚ
  | PyFloatSpecial.inf => 1
  | PyFloatSpecial.ninf => 0
  | PyFloatSpecial.nan => 1

/-- `detect_call_intention` (identical score extraction in
`detect_intro_request_intention`): an exception from the classifier call is
caught and scored 0; otherwise the first regex match is clamped into
`[0, 1]`; with no match, `float(raw_response)` is attempted and clamped,
and its `ValueError` is caught and scored 0. -/
def detect_call_intention (classifierReply : Except Unit (List Char)) : ℚ :=
  match classifierReply with
  | Except.error _ => 0
  | Except.ok raw =>
      match findFirstNumber raw with
      | some q => max 0 (min 1 q)
      | none =>
          match pyFloatOfChars raw with
          | some v => clampSpecial v
          | none => 0

/-- The session dict circulating between Redis, `main.py` and
`chat.process_message`: resolved user id, session id (embedded by its
creation epoch second), message history and last-activity timestamp. -/
structure SessionData where
  userId : Option Nat
  sessionId : Option Nat
  messages : List Msg
  lastActivity : Nat
deriving DecidableEq, Repr

/-- The `intro_intention_score > 0.7` threshold of `chat.process_message`. -/
def introThreshold : ℚ := mkRat 7 10

/-- The `call_intention_score > 0.8` threshold of `chat.process_message`. -/
def callThreshold : ℚ := mkRat 8 10

/-- The collaborator responses one `chat.process_message` call observes:
the user-directory resolution, the two classifier scores, the template
detection (`is_template_response` with `response_type == "positive"`), the
texts produced by each handler, the unhandled-exception oracles, and the
current time.  The two oracles mark the genuinely unguarded raise points of
the body: `nameSplitRaises` is the IndexError of `.split()[0]` on a
whitespace-only profile name (`chat.py` lines 872 and 926,
`chat_logic.py` line 1240), hit in the introduction and call branches
before their appends; `setexRaises` is a failing unguarded
`redis_client.setex` (`chat.py` lines 905, 955 and 1044), hit in the
introduction, call and plain-chat branches after their appends (the
template branch has no unguarded raise point). -/
structure ChatEnv where
  lookupUser : Option Nat
  introScore : ℚ
  callScore : ℚ
  templatePositive : Bool
  introReply : String
  callReply : String
  templateReply : String
  chatReply : String
  nameSplitRaises : Bool
  setexRaises : Bool
  now : Nat

/-- The dict `chat.process_message` returns, together with whether this call
inserted a new `sessions` row.  The three flags embed the `intro_requested`,
`call_initiated` and `intro_sent` keys distinguishing the handler that ran. -/
structure ProcessResult where
  success : Bool
  response : String
  sessionData : SessionData
  introRequested : Bool
  callInitiated : Bool
  introSent : Bool
  sessionCreated : Bool
deriving DecidableEq, Repr

/-- The apology of the `except` clause of `chat.process_message` (same text
in `chat_logic.process_message`). -/
def processApology : String := "Sorry, an error occurred while processing your message."

/-- The `try` body of `chat.process_message`: resolve the user id (abort
with `success = False` and response `"User not found"` when impossible —
this early return precedes every mutation and every unguarded raise point),
set `user_id` and `session_id` on the dict in place, then dispatch: the
introduction branch fires first (`intro_intention_score > 0.7`), then the
call branch (`call_intention_score > 0.8`), then the positive-template
branch, else plain chat.  Each branch appends its messages, bumps
`last_activity` and returns; the introduction branch appends the assistant
reply only when `handle_intro_request` returned a non-empty message, and the
template branch appends only the assistant introduction message.  An
unhandled exception at one of the unguarded points propagates as
`Except.error` carrying the session dict as already mutated in place at
that point. -/
def process_message_body (env : ChatEnv) (sd : SessionData) (message : String) :
    Except SessionData ProcessResult :=
  match (match sd.userId with | some u => some u | none => env.lookupUser) with
  | none => Except.ok ⟨false, "User not found", sd, false, false, false, false⟩
  | some uid =>
      let sd1 : SessionData := { sd with userId := some uid }
      let created := sd1.sessionId.isNone
      let sd2 : SessionData :=
        match sd1.sessionId with
        | some _ => sd1
        | none => { sd1 with sessionId := some env.now }
      if introThreshold < env.introScore then
        if env.nameSplitRaises then Except.error sd2
        else
          let msgs := sd2.messages ++ [⟨true, message, env.now⟩]
          let msgs := if env.introReply = "" then msgs
            else msgs ++ [⟨false, env.introReply, env.now⟩]
          let sd3 : SessionData := { sd2 with messages := msgs, lastActivity := env.now }
          if env.setexRaises then Except.error sd3
          else Except.ok ⟨true, env.introReply, sd3, true, false, false, created⟩
      else if callThreshold < env.callScore then
        if env.nameSplitRaises then Except.error sd2
        else
          let sd3 : SessionData := { sd2 with
            messages := sd2.messages ++
              [⟨true, message, env.now⟩, ⟨false, env.callReply, env.now⟩]
            lastActivity := env.now }
          if env.setexRaises then Except.error sd3
          else Except.ok ⟨true, env.callReply, sd3, false, true, false, created⟩
      else if env.templatePositive then
        Except.ok ⟨true, env.templateReply,
          { sd2 with
              messages := sd2.messages ++ [⟨false, env.templateReply, env.now⟩]
              lastActivity := env.now },
          false, false, true, created⟩
      else
        let sd3 : SessionData := { sd2 with
          messages := sd2.messages ++
            [⟨true, message, env.now⟩, ⟨false, env.chatReply, env.now⟩]
          lastActivity := env.now }
        if env.setexRaises then Except.error sd3
        else Except.ok ⟨true, env.chatReply, sd3, false, false, false, created⟩

/-- `chat.process_message`: the body above under its enclosing
`try/except`; an unhandled exception yields `success = False` with the
apology and the session dict as mutated in place up to the raise point
(the `except` clause returns the very `session_data` object the body was
mutating). -/
def process_message (env : ChatEnv) (sd : SessionData) (message : String) :
    ProcessResult :=
  match process_message_body env sd message with
  | Except.ok r => r
  | Except.error sdMut => ⟨false, processApology, sdMut, false, false, false, false⟩

/-- The four mutually-exclusive handling paths of one inbound message. -/
inductive Handler where
  | intro
  | call
  | template
  | chat
deriving DecidableEq, Repr

/-- Which handler a `process_message` result came from, read off the flags
its return dict carries. -/
def selectedHandler (r : ProcessResult) : Handler :=
  if r.introRequested then Handler.intro
  else if r.callInitiated then Handler.call
  else if r.introSent then Handler.template
  else Handler.chat

/-- The dispatch order the specification claims, stated from the spec words:
the pending-template-reply check first, then call-intent, then
introduction-intent, otherwise plain chat. -/
def claimedDispatch (env : ChatEnv) : Handler :=
  if env.templatePositive then Handler.template
  else if callThreshold < env.callScore then Handler.call
  else if introThreshold < env.introScore then Handler.intro
  else Handler.chat

/-- What `main.get_or_create_session` returns and writes: the session dict,
whether it inserted a `sessions` row, and whether it wrote the dict to the
Redis cache. -/
structure GetOrCreateResult where
  session : SessionData
  createdInStore : Bool
  wroteCache : Bool
deriving DecidableEq, Repr

/-- An active `sessions` row as `get_active_supabase_session` returns it. -/
structure ActiveRow where
  sid : Nat
  messages : List Msg
  lastActivity : Nat
deriving DecidableEq, Repr

/-- `main.get_or_create_session`: a Redis hit refreshes the TTL and returns
the cached dict; on a miss, an unresolvable user returns a minimal session
dict before any store insert or Redis write; otherwise an active store row is
hydrated into the cache, or a fresh row is created in the store and cached. -/
def get_or_create_session (cache : Option SessionData) (lookupUser : Option Nat)
    (storeActive : Option ActiveRow) (now : Nat) : GetOrCreateResult :=
  match cache with
  | some s => ⟨s, false, false⟩
  | none =>
      match lookupUser with
      | none => ⟨⟨none, none, [], now⟩, false, false⟩
      | some uid =>
          match storeActive with
          | some a => ⟨⟨some uid, some a.sid, a.messages, a.lastActivity⟩, false, true⟩
          | none => ⟨⟨some uid, some now, [], now⟩, true, true⟩

/-- The reply the webhook hands back to the end user: the handler response
on success, the generic French apology otherwise. -/
inductive WebhookReply where
  | text (s : String)
  | fallbackApology
deriving DecidableEq, Repr

/-- The reply selection of `main.whatsapp_webhook` after `process_message`. -/
def webhook_reply (r : ProcessResult) : WebhookReply :=
  if r.success then WebhookReply.text r.response else WebhookReply.fallbackApology

/-- Counterexample to C1 as stated: from a session present in memory and
Active in the store, two sequential `close_session` calls start two
profile-updater delivery attempts, not one — the second call finds the row
(already closed) in the store and notifies again, because no branch checks
the prior status. -/
theorem close_session_twice_cex :
    (close_session (close_session
        ⟨some [⟨true, "hi", 0⟩], some ⟨SessStatus.active, []⟩, []⟩)).delivered.length = 2
    ∧ ¬ ((close_session (close_session
        ⟨some [⟨true, "hi", 0⟩], some ⟨SessStatus.active, []⟩, []⟩)).delivered.length = 1) := by
  decide

/-- C1 (amended): `close_session` is not idempotent in its notification.
Each call that finds the session — in the in-memory cache or in the store —
marks it Closed and starts exactly one delivery attempt, regardless of the
prior status; only a call that finds the session nowhere is a no-op. -/
theorem close_session_delivery_count (s : CloseState) :
    (close_session s).delivered.length =
      s.delivered.length + (if s.mem.isSome || s.db.isSome then 1 else 0) := by
  rcases s with ⟨mem, db, dl⟩
  cases mem <;> cases db <;> simp [close_session]

/-- Counterexample to C5 as stated: a session closed from the store (not in
memory) has its stored, unsorted message order handed to the notifier — the
store branch of `close_session` performs no sort. -/
theorem close_db_unsorted_cex :
    (close_session ⟨none, some ⟨SessStatus.active,
        [⟨true, "b", 2⟩, ⟨false, "a", 1⟩]⟩, []⟩).delivered
      = [[⟨true, "b", 2⟩, ⟨false, "a", 1⟩]]
    ∧ ¬ List.Sorted msgLe [⟨true, "b", 2⟩, ⟨false, "a", 1⟩] := by
  constructor
  · rfl
  · decide

/-- C5 (amended): only when the session is closed from the in-memory cache
is the transcript stably sorted by timestamp immediately before persistence
and delivery, and that sorted transcript contains every session message
exactly once (it is a permutation of the appended messages); a session
loaded from the store is delivered in stored order, unsorted. -/
theorem close_session_transcript (msgs : List Msg) (db : Option DbSession)
    (dl : List (List Msg)) :
    ((close_session ⟨some msgs, db, dl⟩).delivered = dl ++ [sortTranscript msgs]
      ∧ (sortTranscript msgs).Perm msgs
      ∧ List.Sorted msgLe (sortTranscript msgs))
    ∧ ∀ d : DbSession, (close_session ⟨none, some d, dl⟩).delivered = dl ++ [d.messages] :=
  ⟨⟨rfl, List.perm_insertionSort msgLe msgs, List.sorted_insertionSort msgLe msgs⟩,
    fun _ => rfl⟩

/-- C4: the reaper closes a session only when the elapsed time since its
`last_activity` strictly exceeds the timeout, so no session is driven
through close strictly before `last_activity + timeout` has elapsed. -/
theorem reaper_never_closes_early (now timeout : Int) (rows : List ReapRow)
    (r : ReapRow) (t : Int)
    (hmem : r ∈ close_expired_sessions now timeout rows)
    (ht : r.lastActivity = some t) : t + timeout < now := by
  have hp := List.of_mem_filter hmem
  simp [ht] at hp
  omega

/-- Witness for C4 at a concrete sweep. -/
theorem reaper_never_closes_early_witness : (10 : Int) + 20 < 100 :=
  reaper_never_closes_early 100 20 [⟨1, some 10⟩] ⟨1, some 10⟩ 10 (by decide) rfl

/-- Bounds of the notifier attempt loop: at most `remaining` POSTs are made
and at most one side-queue file is written. -/
theorem notifyGo_bounds (ok : Nat → Bool) (sid : String) (now : Nat) :
    ∀ rem a d, (notifyGo ok sid now rem a d).posts ≤ rem
      ∧ (notifyGo ok sid now rem a d).sideQueue.length ≤ 1
  | 0, _, _ => by simp [notifyGo]
  | 1, a, _ => by by_cases h : ok a <;> simp [notifyGo, h]
  | r + 2, a, d => by
    by_cases h : ok a
    · simp [notifyGo, h]
    · have ih := notifyGo_bounds ok sid now (r + 1) (a + 1) (2 * d)
      simp only [notifyGo, h, if_false, Bool.false_eq_true]
      constructor
      · have := ih.1
        omega
      · exact ih.2

/-- Counterexample to C6 as stated: the delivery performed by
`chat.close_session` (the `chat.py` close path, cited by the claim) makes a
single POST on persistent failure — no retry up to `max_retries` and no
side-queue write. -/
theorem chat_close_no_retry_cex :
    ¬ ((chat_close_deliver false [⟨true, "hi", 0⟩]).posts = max_retries
        ∧ (chat_close_deliver false [⟨true, "hi", 0⟩]).sideQueue.length = 1) := by
  decide

/-- C6 (amended): the `chat_logic` notifier `send_profile_update_async`
makes at most `max_retries = 3` delivery attempts and writes at most one
side-queue file; on persistent failure it makes exactly 3 attempts, sleeps
2 then 4 seconds (the delay doubling between attempts), and writes the
transcript exactly once to the side-queue keyed by session id and timestamp.
The `chat.py` close path, by contrast, makes a single attempt with no retry
and no side-queue (see the counterexample). -/
theorem send_profile_update_retry_exhaustion (sid : String) (now : Nat) :
    send_profile_update_async (fun _ => false) sid now = ⟨3, [2, 4], [(sid, now)]⟩
    ∧ ∀ ok : Nat → Bool, (send_profile_update_async ok sid now).posts ≤ max_retries
      ∧ (send_profile_update_async ok sid now).sideQueue.length ≤ 1 :=
  ⟨rfl, fun ok => notifyGo_bounds ok sid now max_retries 1 2⟩

/-- Counterexample to C2 as stated: with no lock around the
check-then-create sequence, the interleaving in which both calls pass the
active-session check before either inserts (creation epochs 1 and 2) leaves
two Active rows for the same identity. -/
theorem get_or_create_race_cex :
    ¬ (activeCount ((gocRun [true, false, true, false] (gocInit 1 2)).store) ≤ 1) := by
  decide

/-- C2 (amended): only when the two `get_or_create_session` calls are
serialized (the second starts after the first completed) does the second
call find the Active row of the first call: exactly one row is created and both
calls return the same session id.  Under an interleaving that lets both
calls pass the check before either insert, two Active rows are created (see
the counterexample). -/
theorem get_or_create_serialized (t1 t2 : Nat) :
    activeCount ((gocRun [true, true, false, false] (gocInit t1 t2)).store) = 1
    ∧ (gocRun [true, true, false, false] (gocInit t1 t2)).c2.result
        = (gocRun [true, true, false, false] (gocInit t1 t2)).c1.result
    ∧ (gocRun [true, true, false, false] (gocInit t1 t2)).c1.result = some t1 :=
  ⟨rfl, rfl, rfl⟩

/-- Counterexample to C3 as stated: on a message that is both a positive
pending-template reply and a clear introduction request, `process_message`
runs the introduction handler, while the claimed priority order (template
check first) selects the template handler. -/
theorem intent_priority_cex :
    ¬ (selectedHandler (process_message
          ⟨some 1, 1, 0, true, "", "", "", "", false, false, 0⟩
          ⟨some 1, some 1, [], 0⟩ "msg")
        = claimedDispatch ⟨some 1, 1, 0, true, "", "", "", "", false, false, 0⟩) := by
  decide

/-- C3 (amended): per inbound message exactly one handler executes, selected
in the fixed priority order of `chat.process_message`: introduction-intent
first (score > 0.7), then call-intent (score > 0.8), then the positive
pending-template-reply check, otherwise plain chat — not the
template-first order the claim states. -/
theorem intent_priority_order (env : ChatEnv) (sd : SessionData) (message : String)
    (uid : Nat) (hn : env.nameSplitRaises = false) (hx : env.setexRaises = false)
    (hu : (match sd.userId with | some u => some u | none => env.lookupUser) = some uid) :
    (process_message env sd message).success = true
    ∧ selectedHandler (process_message env sd message) =
        (if introThreshold < env.introScore then Handler.intro
         else if callThreshold < env.callScore then Handler.call
         else if env.templatePositive then Handler.template
         else Handler.chat) := by
  by_cases h1 : introThreshold < env.introScore
  · simp [process_message, process_message_body, selectedHandler, hn, hx, hu, h1]
  · by_cases h2 : callThreshold < env.callScore
    · simp [process_message, process_message_body, selectedHandler, hn, hx, hu, h1, h2]
    · by_cases h3 : env.templatePositive
      · simp [process_message, process_message_body, selectedHandler, hn, hx, hu, h1, h2, h3]
      · simp [process_message, process_message_body, selectedHandler, hn, hx, hu, h1, h2, h3]

/-- Witness for C3 (amended) on a plain-chat message. -/
theorem intent_priority_order_witness :
    (process_message ⟨some 1, 0, 0, false, "a", "b", "c", "d", false, false, 5⟩
        ⟨none, none, [], 0⟩ "hi").success = true
    ∧ selectedHandler (process_message ⟨some 1, 0, 0, false, "a", "b", "c", "d", false, false, 5⟩
        ⟨none, none, [], 0⟩ "hi") =
        (if introThreshold < (0 : ℚ) then Handler.intro
         else if callThreshold < (0 : ℚ) then Handler.call
         else if false then Handler.template
         else Handler.chat) :=
  intent_priority_order ⟨some 1, 0, 0, false, "a", "b", "c", "d", false, false, 5⟩
    ⟨none, none, [], 0⟩ "hi" 1 rfl rfl rfl

/-- C7: for an identity whose user id cannot be resolved,
`get_or_create_session` inserts no `sessions` row and writes nothing to the
Redis cache, returning a minimal dict with no session id; `process_message`
on that dict aborts with `success = False` and response `"User not found"`,
creating no session and leaving the session dict unchanged; and the webhook
turns the failure into the fallback apology reply to the end user. -/
theorem unknown_identity_no_session (storeActive : Option ActiveRow) (now : Nat)
    (env : ChatEnv) (message : String)
    (hl : env.lookupUser = none) :
    (get_or_create_session none env.lookupUser storeActive now).createdInStore = false
    ∧ (get_or_create_session none env.lookupUser storeActive now).wroteCache = false
    ∧ (get_or_create_session none env.lookupUser storeActive now).session
        = ⟨none, none, [], now⟩
    ∧ process_message env ⟨none, none, [], now⟩ message
        = ⟨false, "User not found", ⟨none, none, [], now⟩, false, false, false, false⟩
    ∧ webhook_reply (process_message env ⟨none, none, [], now⟩ message)
        = WebhookReply.fallbackApology := by
  refine ⟨by simp [get_or_create_session, hl], by simp [get_or_create_session, hl],
    by simp [get_or_create_session, hl], ?_, ?_⟩ <;>
    simp [process_message, process_message_body, webhook_reply, hl]

/-- Witness for C7 at a concrete unresolvable identity. -/
theorem unknown_identity_no_session_witness :
    (get_or_create_session none
        (ChatEnv.lookupUser ⟨none, 0, 0, false, "", "", "", "", false, false, 7⟩)
        none 7).createdInStore = false
    ∧ (get_or_create_session none
        (ChatEnv.lookupUser ⟨none, 0, 0, false, "", "", "", "", false, false, 7⟩)
        none 7).wroteCache = false
    ∧ (get_or_create_session none
        (ChatEnv.lookupUser ⟨none, 0, 0, false, "", "", "", "", false, false, 7⟩)
        none 7).session = ⟨none, none, [], 7⟩
    ∧ process_message ⟨none, 0, 0, false, "", "", "", "", false, false, 7⟩
        ⟨none, none, [], 7⟩ "hi"
        = ⟨false, "User not found", ⟨none, none, [], 7⟩, false, false, false, false⟩
    ∧ webhook_reply (process_message ⟨none, 0, 0, false, "", "", "", "", false, false, 7⟩
        ⟨none, none, [], 7⟩ "hi") = WebhookReply.fallbackApology :=
  unknown_identity_no_session none 7 ⟨none, 0, 0, false, "", "", "", "", false, false, 7⟩
    "hi" rfl

/-- Counterexample to C10 as stated: on an unresolvable user,
`process_message` returns `success = False` with response `"User not
found"`, which is not the apology string the claim requires of every
internal failure. -/
theorem process_message_apology_cex :
    (process_message ⟨none, 0, 0, false, "", "", "", "", false, false, 0⟩
        ⟨none, none, [], 0⟩ "hi").success = false
    ∧ ¬ ((process_message ⟨none, 0, 0, false, "", "", "", "", false, false, 0⟩
        ⟨none, none, [], 0⟩ "hi").response = processApology) := by
  decide

/-- C10 (amended): `process_message` is total at its public interface —
every call returns a result dict carrying success, response and session data
and never propagates an exception.  Every failure result carries either the
apology string or `"User not found"`.  An unhandled internal exception is
caught and yields `success = False` with the apology and the session dict as
mutated in place up to the raise point (the in-place mutations — `user_id`,
`session_id`, appended messages — stay visible to the caller).  The
unresolvable-user failure returns `"User not found"`, not the apology, with
the dict unchanged, since that early return precedes every mutation. -/
theorem process_message_failure_modes (env : ChatEnv) (sd : SessionData)
    (message : String) :
    ((process_message env sd message).success = false →
        (process_message env sd message).response = processApology
          ∨ (process_message env sd message).response = "User not found")
    ∧ (∀ sdMut : SessionData,
        process_message_body env sd message = Except.error sdMut →
        process_message env sd message
          = ⟨false, processApology, sdMut, false, false, false, false⟩)
    ∧ ((match sd.userId with | some u => some u | none => env.lookupUser) = none →
        process_message env sd message
          = ⟨false, "User not found", sd, false, false, false, false⟩) := by
  refine ⟨?_, ?_, ?_⟩
  · cases hu : (match sd.userId with | some u => some u | none => env.lookupUser) with
    | none => simp [process_message, process_message_body, hu]
    | some uid =>
        by_cases h1 : introThreshold < env.introScore
        · by_cases hn : env.nameSplitRaises
          · simp [process_message, process_message_body, hu, h1, hn]
          · by_cases hx : env.setexRaises
            · simp [process_message, process_message_body, hu, h1, hn, hx]
            · simp [process_message, process_message_body, hu, h1, hn, hx]
        · by_cases h2 : callThreshold < env.callScore
          · by_cases hn : env.nameSplitRaises
            · simp [process_message, process_message_body, hu, h1, h2, hn]
            · by_cases hx : env.setexRaises
              · simp [process_message, process_message_body, hu, h1, h2, hn, hx]
              · simp [process_message, process_message_body, hu, h1, h2, hn, hx]
          · by_cases h3 : env.templatePositive
            · simp [process_message, process_message_body, hu, h1, h2, h3]
            · by_cases hx : env.setexRaises
              · simp [process_message, process_message_body, hu, h1, h2, h3, hx]
              · simp [process_message, process_message_body, hu, h1, h2, h3, hx]
  · intro sdMut h
    simp [process_message, h]
  · intro hu
    simp [process_message, process_message_body, hu]

/-- Witness for C10 (amended): a concrete unhandled exception — the
unguarded Redis `setex` failing in the plain-chat branch — is caught and
turned into the apology failure whose session dict carries the in-place
mutations (resolved user id, fresh session id, both appended messages)
performed before the raise point. -/
theorem process_message_failure_modes_witness :
    process_message ⟨some 1, 0, 0, false, "", "", "", "d", false, true, 5⟩
        ⟨none, none, [], 0⟩ "x"
      = ⟨false, processApology,
          ⟨some 1, some 5, [⟨true, "x", 5⟩, ⟨false, "d", 5⟩], 5⟩,
          false, false, false, false⟩ :=
  (process_message_failure_modes ⟨some 1, 0, 0, false, "", "", "", "d", false, true, 5⟩
      ⟨none, none, [], 0⟩ "x").2.1
    ⟨some 1, some 5, [⟨true, "x", 5⟩, ⟨false, "d", 5⟩], 5⟩ rfl

/-- C8: intent-score extraction tolerates malformed classifier output.  A
failed classifier call scores 0; a reply from which neither the regex nor
the `float(...)` fallback extracts a number scores 0; and every reply —
parsed or not — yields a score in `[0, 1]`, with no exception escaping into
the message-processing path (the extraction is a total function whose
exceptional branches are the explicit 0 cases above). -/
theorem detect_intention_parse_tolerant (raw : List Char)
    (h1 : findFirstNumber raw = none) (h2 : pyFloatOfChars raw = none) :
    detect_call_intention (Except.ok raw) = 0
    ∧ detect_call_intention (Except.error ()) = 0
    ∧ ∀ x : Except Unit (List Char),
        0 ≤ detect_call_intention x ∧ detect_call_intention x ≤ 1 := by
  refine ⟨by simp [detect_call_intention, h1, h2], rfl, fun x => ?_⟩
  cases x with
  | error e => simp [detect_call_intention]
  | ok r =>
      cases hf : findFirstNumber r with
      | some q =>
          refine ⟨?_, ?_⟩
          · simp [detect_call_intention, hf]
          · simp [detect_call_intention, hf]
      | none =>
          cases hp : pyFloatOfChars r with
          | some v =>
              cases v <;> simp [detect_call_intention, hf, hp, clampSpecial]
          | none => simp [detect_call_intention, hf, hp]

/-- Witness for C8 on a digit-free classifier reply. -/
theorem detect_intention_parse_tolerant_witness :
    detect_call_intention (Except.ok ("I cannot tell".toList)) = 0
    ∧ detect_call_intention (Except.error ()) = 0
    ∧ ∀ x : Except Unit (List Char),
        0 ≤ detect_call_intention x ∧ detect_call_intention x ≤ 1 :=
  detect_intention_parse_tolerant ("I cannot tell".toList) (by decide) (by decide)

/-- Counterexample to C9 as stated: normalization does not enforce exactly
one leading `'+'` — an address already carrying two keeps both, since the
code only prepends `'+'` when the cleaned number does not start with it. -/
theorem normalize_single_plus_cex :
    ¬ (leadingPlus (normalizeNumber ("++15550001111".toList)) = 1) := by
  decide

/-- C9 (amended): normalization strips every `"whatsapp:"` occurrence and
guarantees at least one leading `'+'` — exactly one precisely when the
cleaned address does not itself start with several (the count is
`max 1` of the cleaned count); the user-directory lookup is keyed first by
this normalized form (a hit on it wins), with a second fallback lookup on
the form minus its leading `'+'`. -/
theorem normalize_plus_characterization (p : List Char) :
    (normalizeNumber p).head? = some '+'
    ∧ leadingPlus (normalizeNumber p) = max 1 (leadingPlus (cleanNumber p))
    ∧ ∀ (dir : List (List Char × Nat)) (u : Nat),
        lookupDir dir (normalizeNumber p) = some u → get_user_id dir p = some u := by
  by_cases h : (cleanNumber p).head? = some '+'
  · have hn : normalizeNumber p = cleanNumber p := by
      simp [normalizeNumber, h]
    refine ⟨by rw [hn]; exact h, ?_, ?_⟩
    · rw [hn]
      cases hc : cleanNumber p with
      | nil => simp [hc] at h
      | cons c cs =>
          have hcp : c = '+' := by simp [hc] at h; exact h
          subst hcp
          simp [leadingPlus, List.takeWhile]
    · intro dir u hlook
      simp [get_user_id, hlook]
  · have hn : normalizeNumber p = '+' :: cleanNumber p := by
      simp [normalizeNumber, h]
    refine ⟨by rw [hn]; rfl, ?_, ?_⟩
    · rw [hn]
      have hz : leadingPlus (cleanNumber p) = 0 := by
        cases hc : cleanNumber p with
        | nil => simp [leadingPlus]
        | cons c cs =>
            have hcp : ¬ (c = '+') := by
              intro he
              apply h
              simp [hc, he]
            simp [leadingPlus, List.takeWhile, hcp]
      rw [hz]
      simp [leadingPlus, List.takeWhile, hz]
      cases hc : cleanNumber p with
      | nil => simp [leadingPlus, List.takeWhile]
      | cons c cs =>
          have hcp : ¬ (c = '+') := by
            intro he
            apply h
            simp [hc, he]
          simp [leadingPlus, List.takeWhile, hcp]
    · intro dir u hlook
      simp [get_user_id, hlook]

/-- Witness for C9 (amended): the fallback-free lookup on a
`whatsapp:`-prefixed address resolves through the normalized key. -/
theorem normalize_plus_characterization_witness :
    get_user_id [("+15550001111".toList, 42)] ("whatsapp:+15550001111".toList) = some 42 :=
  (normalize_plus_characterization ("whatsapp:+15550001111".toList)).2.2
    [("+15550001111".toList, 42)] 42 (by decide)
